import Mathlib

/-!
Verification of the tool-augmented query orchestrator of the RAG chatbot
codebase. The definitions below are a shallow embedding of
`backend/ai_generator.py` (class `AIGenerator`), of the Tool Registry
contract exercised by `backend/tests/test_search_tools.py`, and of the
query endpoint defined in `backend/tests/test_api.py` (`create_test_app`).

Modelling conventions:
- The Anthropic client is replaced by a script: a list of `Option Response`
  steps consumed in call order. `some r` means the provider returned `r`;
  `none` means the call raised (transport/provider failure). Exhausting the
  script is also a failure. The whole orchestrator therefore returns
  `Option Trace`: `none` models an uncaught exception propagating out of
  `generate_response`.
- Python truthiness of the `conversation_history`, `tools` and
  `tool_manager` arguments is modelled explicitly (`None`/empty ⇒ falsy).
- A message's content is a string (the user query), the assistant's content
  blocks appended verbatim, or a list of tool_result items.
- `tool_manager.execute_tool(name, **input)` is modelled by a function
  `String → ToolInput → String` where `ToolInput` is the keyword-argument
  mapping of a tool_use block.
-/

/-- Keyword arguments of a tool invocation (`block.input`), an ordered
string-keyed mapping. -/
abbrev ToolInput := List (String × String)

/-- A tool schema dict, passed verbatim to the model and never inspected by
`ai_generator.py`; modelled opaquely. -/
abbrev ToolDef := String

/-- One content block of a model response. `type` is the block's type tag
("text", "tool_use", ...). The `text` attribute is `Option`-valued: a block
that has no `text` attribute (a real tool_use block) carries `none`, and
reading it models raising `AttributeError`. `name`, `input` and `id` are
only read by the source on blocks whose `type` is "tool_use". -/
structure ContentBlock where
  type : String
  text : Option String := none
  name : String := ""
  input : ToolInput := []
  id : String := ""
deriving Repr, DecidableEq

/-- A model response: `stop_reason` ("tool_use", "end_turn", ...) and its
content blocks. -/
structure Response where
  stop_reason : String
  content : List ContentBlock
deriving Repr, DecidableEq

/-- One `tool_result` item (a dict with "type": "tool_result"):
`ai_generator.py` lines 103-107. -/
structure ToolResult where
  tool_use_id : String
  content : String
deriving Repr, DecidableEq

/-- The content of one entry of the message log. -/
inductive MsgContent where
  /-- A plain string (the initial user query). -/
  | str (s : String)
  /-- The assistant's content blocks, appended verbatim (line 96). -/
  | blocks (bs : List ContentBlock)
  /-- A list of tool_result items (line 108). -/
  | results (rs : List ToolResult)
deriving Repr, DecidableEq

/-- One entry of the message log: a role-tagged content. -/
structure Message where
  role : String
  content : MsgContent
deriving Repr, DecidableEq

/-- The keyword arguments of one `client.messages.create(...)` call that the
claims are about: the message log, the system string, and the "tools" key
(`none` when the key is absent; `tool_choice` accompanies `tools` exactly
when it is present, so it is not recorded separately). -/
structure ModelCall where
  messages : List Message
  system : String
  tools : Option (List ToolDef)
deriving Repr, DecidableEq

/-- `tool_manager.execute_tool(name, **input)`. -/
abbrev Exec := String → ToolInput → String

/-- A dispatch through the tool manager: the name and keyword arguments
`execute_tool` was called with, in call order. -/
abbrev Dispatch := String × ToolInput

/-- The observable outcome of one `generate_response` run: every model call
made (in order, with its parameters), every tool dispatch (in order), and
the returned string. -/
structure Trace where
  calls : List ModelCall
  dispatches : List Dispatch
  result : String
deriving Repr, DecidableEq

namespace AIGenerator

/-- `AIGenerator.MAX_TOOL_ROUNDS` (line 7). -/
def MAX_TOOL_ROUNDS : Nat := 2

/-- `AIGenerator.SYSTEM_PROMPT` (lines 10-39), verbatim. -/
def SYSTEM_PROMPT : String := " You are an AI assistant specialized in course materials and educational content with access to tools for course information.

Available Tools:
1. **search_course_content** — Search course materials for specific content or detailed educational information.
2. **get_course_outline** — Retrieve a course's full outline: title, course link, and all lessons (number + title). Use this for questions about what a course covers, its structure, syllabus, or lesson listings.

Tool Usage:
- **Up to two tool calls per query**
- Use a second tool call only when the first tool's results are insufficient or when you need information from a different tool to fully answer the question
- For questions about course structure, outlines, or lesson lists → use `get_course_outline`
- For questions about specific course content or topics → use `search_course_content`
- Synthesize tool results into accurate, fact-based responses
- When returning an outline, include the course title, course link, and every lesson's number and title
- If a tool yields no results, state this clearly without offering alternatives

Response Protocol:
- **General knowledge questions**: Answer using existing knowledge without tools
- **Course outline/structure questions**: Use `get_course_outline`, then present the full outline
- **Course content questions**: Use `search_course_content`, then answer
- **No meta-commentary**:
 - Provide direct answers only — no reasoning process, search explanations, or question-type analysis
 - Do not mention \"based on the search results\" or \"based on the tool results\"

All responses must be:
1. **Brief, Concise and focused** - Get to the point quickly
2. **Educational** - Maintain instructional value
3. **Clear** - Use accessible language
4. **Example-supported** - Include relevant examples when they aid understanding
Provide only the direct answer to what was asked.
"

/-- The system-content construction of lines 69-74. Python truthiness:
`if conversation_history` is false for `None` and for the empty string. -/
def build_system_content (conversation_history : Option String) : String :=
  match conversation_history with
  | some h =>
      if h.isEmpty then SYSTEM_PROMPT
      else SYSTEM_PROMPT ++ "\n\nPrevious conversation:\n" ++ h
  | none => SYSTEM_PROMPT

/-- Python truthiness of the `tools` argument: `None` and `[]` are falsy
(lines 84 and 118). -/
def toolsTruthy (tools : Option (List ToolDef)) : Bool :=
  match tools with
  | some l => !l.isEmpty
  | none => false

/-- Whether a content block's `type` attribute equals "tool_use"
(line 101). -/
def isToolUse (b : ContentBlock) : Bool := b.type == "tool_use"

/-- The tool_result list built for one round (lines 99-107): one item per
tool_use block of the response content, in block order, carrying the
block's id and the string `execute_tool` returned. -/
def round_results (exec : Exec) (content : List ContentBlock) : List ToolResult :=
  (content.filter isToolUse).map fun b => ⟨b.id, exec b.name b.input⟩

/-- The dispatches performed for one round, in block order (line 102). -/
def round_dispatches (content : List ContentBlock) : List Dispatch :=
  (content.filter isToolUse).map fun b => (b.name, b.input)

/-- `AIGenerator._extract_text` (lines 126-131): return the first
text-typed block's `text`; otherwise fall back to `content[0].text`.
`none` models the call raising (`IndexError` on empty content,
`AttributeError` when the fallback block has no `text` attribute). -/
def extract_text (content : List ContentBlock) : Option String :=
  match content.find? (fun b => b.type == "text") with
  | some b => b.text
  | none => content.head?.bind ContentBlock.text

/-- The message log after one tool round (lines 96 and 108): the
assistant's tool-requesting message appended verbatim, then one user
message holding the round's tool results. -/
def after_round (messages : List Message) (exec : Exec) (content : List ContentBlock) :
    List Message :=
  messages ++ [⟨"assistant", .blocks content⟩,
    ⟨"user", .results (round_results exec content)⟩]

/-- The follow-up call parameters of lines 110-120: the accumulated log and
the same system content; tools (with auto tool_choice) only if
`round_num < MAX_TOOL_ROUNDS - 1` and `tools` is truthy. -/
def follow_up_call (messages2 : List Message) (system_content : String)
    (round_num : Nat) (tools : Option (List ToolDef)) : ModelCall :=
  ⟨messages2, system_content,
    if decide (round_num < MAX_TOOL_ROUNDS - 1) && toolsTruthy tools then tools
    else none⟩

/-- The tool-use loop of lines 91-122. `fuel` is the number of loop
iterations still permitted (`MAX_TOOL_ROUNDS - round_num`) and `round_num`
the current Python loop index. `client` is the remaining provider script;
`calls` and `disps` accumulate the trace. -/
def tool_use_loop (tool_manager : Option Exec) (tools : Option (List ToolDef))
    (system_content : String) :
    Nat → Nat → List (Option Response) → List Message → Response →
    List ModelCall → List Dispatch → Option Trace
  | 0, _, _, _, response, calls, disps =>
      (extract_text response.content).map fun t => ⟨calls, disps, t⟩
  | fuel + 1, round_num, client, messages, response, calls, disps =>
      if response.stop_reason != "tool_use" || tool_manager.isNone then
        (extract_text response.content).map fun t => ⟨calls, disps, t⟩
      else
        match tool_manager, client with
        | none, _ => (extract_text response.content).map fun t => ⟨calls, disps, t⟩
        | some _, [] => none
        | some _, none :: _ => none
        | some exec, some r :: rest =>
            tool_use_loop tool_manager tools system_content fuel (round_num + 1)
              rest (after_round messages exec response.content) r
              (calls ++ [follow_up_call (after_round messages exec response.content)
                system_content round_num tools])
              (disps ++ round_dispatches response.content)

/-- `AIGenerator.generate_response` (lines 52-124), returning the full
observable trace. `client` scripts the provider: one `Option Response` per
model call, `none` meaning the call raises. -/
def generate_response (client : List (Option Response)) (query : String)
    (conversation_history : Option String := none)
    (tools : Option (List ToolDef) := none)
    (tool_manager : Option Exec := none) : Option Trace :=
  let system_content := build_system_content conversation_history
  let messages : List Message := [⟨"user", .str query⟩]
  let initial_call : ModelCall :=
    ⟨messages, system_content, if toolsTruthy tools then tools else none⟩
  match client with
  | [] => none
  | step :: rest =>
    match step with
    | none => none
    | some response =>
      tool_use_loop tool_manager tools system_content MAX_TOOL_ROUNDS 0
        rest messages response [initial_call] []

end AIGenerator

/-! ### Substring occurrence counting

Used to state the "exactly one marker / no marker duplication" parts of the
system-context claims. -/

/-- Tail-recursive scan: adds to `acc` one for every position of `s` at
which `pat` occurs. -/
def occurrences_go (pat : List Char) : Nat → List Char → Nat
  | acc, [] => acc
  | acc, c :: rest =>
      if pat.isPrefixOf (c :: rest) then occurrences_go pat (acc + 1) rest
      else occurrences_go pat acc rest

/-- Number of (possibly overlapping) occurrences of `pat` in `s`. -/
def occurrences (pat s : String) : Nat := occurrences_go pat.data 0 s.data

/-! ### Message-log shapes

`log_shape q rounds` is the message log after the user query `q` and a list
of completed tool rounds, each contributing the assistant's tool-request
blocks and the round's tool_result items. -/

/-- The message log consisting of the user query followed by one
assistant/user pair per completed tool round. -/
def log_shape (q : String) (rounds : List (List ContentBlock × List ToolResult)) :
    List Message :=
  ⟨"user", .str q⟩ ::
    (rounds.map fun p => [⟨"assistant", .blocks p.1⟩, ⟨"user", .results p.2⟩]).flatten

/-! ### Tool Registry (ToolManager)

Modelled from the spec: `backend/search_tools.py` (class `ToolManager` and
the tools' `last_sources` state) is not part of the sources here, only its
tests are. Spec §4.2: the registry holds the registered tools in
registration order; `drain_sources`/`get_last_sources` "returns whatever
the currently registered tools have accumulated since the last reset,
aggregated across all tools in registration order";
`reset_sources()` "clears every tool's accumulated sources". -/

/-- A citation source: a human-readable label and an optional link
(spec §3, `Source`). -/
structure Source where
  label : String
  link : Option String
deriving Repr, DecidableEq

/-- Modelled from the spec: the per-tool state the registry's source
bookkeeping sees — the tool's name and its accumulated `last_sources`. -/
structure RegisteredTool where
  name : String
  last_sources : List Source
deriving Repr, DecidableEq

/-- Modelled from the spec: the Tool Registry's state — the registered
tools in registration order. -/
structure ToolManager where
  tools : List RegisteredTool
deriving Repr, DecidableEq

/-- Modelled from the spec: aggregate the accumulated sources across all
registered tools, in registration order. -/
def ToolManager.get_last_sources (m : ToolManager) : List Source :=
  (m.tools.map RegisteredTool.last_sources).flatten

/-- Modelled from the spec: clear every registered tool's accumulated
sources. -/
def ToolManager.reset_sources (m : ToolManager) : ToolManager :=
  ⟨m.tools.map fun t => { t with last_sources := [] }⟩

/-! ### The query endpoint

Shallow embedding of the `/api/query` route of
`backend/tests/test_api.py` (`create_test_app`, lines 42-51), which mirrors
`backend/app.py`. Request-body validation (FastAPI/pydantic: a missing
required `query` field is rejected with 422 before the handler runs) is
modelled by the `none` case of the body's `query` field. An exception from
`rag_system.query` is modelled as `Except.error` carrying `str(e)`. -/

/-- A request body for POST `/api/query`: the `query` field is `none` when
absent (pydantic then rejects the request), `session_id` is optional. -/
structure QueryRequestBody where
  query : Option String
  session_id : Option String
deriving Repr, DecidableEq

/-- The RAG system as the endpoint sees it: session creation and the query
orchestrator, which either returns (answer, sources) or raises. -/
structure RagSystem where
  create_session : String
  query : String → String → Except String (String × List String)

/-- The endpoint's observable response. -/
inductive ApiResponse where
  /-- 200: the `QueryResponse` payload `{answer, sources, session_id}`. -/
  | ok (answer : String) (sources : List String) (session_id : String)
  /-- 422: request-body validation failed; the handler never ran. -/
  | unprocessable
  /-- 500: `HTTPException(status_code=500, detail=str(e))`. -/
  | serverError (detail : String)
deriving Repr, DecidableEq

/-- The HTTP status code of a response. -/
def ApiResponse.status : ApiResponse → Nat
  | .ok _ _ _ => 200
  | .unprocessable => 422
  | .serverError _ => 500

/-- The session id the handler uses: the request's `session_id` unless it
is absent or falsy, in which case a new session is created
(`if not session_id: session_id = ...create_session()`). -/
def session_id_of (rag : RagSystem) (body : QueryRequestBody) : String :=
  match body.session_id with
  | none => rag.create_session
  | some s => if s.isEmpty then rag.create_session else s

/-- The POST `/api/query` handler (`query_documents` in the test app),
including the validation step that precedes it. -/
def query_documents (rag : RagSystem) (body : QueryRequestBody) : ApiResponse :=
  match body.query with
  | none => .unprocessable
  | some q =>
    match rag.query q (session_id_of rag body) with
    | .ok (answer, sources) => .ok answer sources (session_id_of rag body)
    | .error e => .serverError e


def tool_use_block (nm : String) (args : ToolInput) (id : String) : ContentBlock :=
  ⟨"tool_use", none, nm, args, id⟩

def text_block (s : String) : ContentBlock := ⟨"text", some s, "", [], ""⟩

def outline_request : Response :=
  ⟨"tool_use", [tool_use_block "get_course_outline" [("course_name", "MCP")] "tool_1"]⟩

def search_request : Response :=
  ⟨"tool_use", [tool_use_block "search_course_content" [("query", "topic X")] "tool_2"]⟩

def final_answer : Response := ⟨"end_turn", [text_block "Here is the combined answer."]⟩

def direct_answer : Response := ⟨"end_turn", [text_block "Direct answer"]⟩

def mock_exec : Exec := fun nm _ => "Tool result: " ++ nm

def error_exec : Exec := fun _ _ => "Search error: n_results must be positive"

def mock_rag : RagSystem :=
  ⟨"session_42", fun _ _ => .ok ("This is a test answer.", ["Intro to AI - Lesson 1"])⟩

def failing_rag : RagSystem :=
  ⟨"session_42", fun _ _ => .error "Model API unavailable"⟩

open AIGenerator

theorem tool_use_loop_zero (tm : Option Exec) (tools : Option (List ToolDef)) (sys : String)
    (round : Nat) (client : List (Option Response)) (msgs : List Message)
    (resp : Response) (calls : List ModelCall) (disps : List Dispatch) :
    tool_use_loop tm tools sys 0 round client msgs resp calls disps =
      (extract_text resp.content).map fun t => ⟨calls, disps, t⟩ := rfl

theorem tool_use_loop_succ (tm : Option Exec) (tools : Option (List ToolDef)) (sys : String)
    (fuel round : Nat) (client : List (Option Response)) (msgs : List Message)
    (resp : Response) (calls : List ModelCall) (disps : List Dispatch) :
    tool_use_loop tm tools sys (fuel + 1) round client msgs resp calls disps =
      if resp.stop_reason != "tool_use" || tm.isNone then
        (extract_text resp.content).map fun t => ⟨calls, disps, t⟩
      else
        match tm, client with
        | none, _ => (extract_text resp.content).map fun t => ⟨calls, disps, t⟩
        | some _, [] => none
        | some _, none :: _ => none
        | some exec, some r :: rest =>
            tool_use_loop tm tools sys fuel (round + 1)
              rest (after_round msgs exec resp.content) r
              (calls ++ [follow_up_call (after_round msgs exec resp.content) sys round tools])
              (disps ++ round_dispatches resp.content) := rfl

theorem tool_use_loop_extension
    (tm : Option Exec) (tools : Option (List ToolDef)) (sys : String) :
    ∀ (fuel round : Nat) (client : List (Option Response)) (msgs : List Message)
      (resp : Response) (calls : List ModelCall) (disps : List Dispatch) (tr : Trace),
      tool_use_loop tm tools sys fuel round client msgs resp calls disps = some tr →
      ∃ ec ed, tr.calls = calls ++ ec ∧ ec.length ≤ fuel ∧ tr.dispatches = disps ++ ed := by
  intro fuel
  induction fuel with
  | zero =>
    intro round client msgs resp calls disps tr h
    rw [tool_use_loop_zero] at h
    simp only [Option.map_eq_some'] at h
    obtain ⟨t, _, rfl⟩ := h
    exact ⟨[], [], by simp, by simp, by simp⟩
  | succ n ih =>
    intro round client msgs resp calls disps tr h
    rw [tool_use_loop_succ] at h
    split at h
    · simp only [Option.map_eq_some'] at h
      obtain ⟨t, _, rfl⟩ := h
      exact ⟨[], [], by simp, by simp, by simp⟩
    · split at h
      · simp only [Option.map_eq_some'] at h
        obtain ⟨t, _, rfl⟩ := h
        exact ⟨[], [], by simp, by simp, by simp⟩
      · exact absurd h (by simp)
      · exact absurd h (by simp)
      · obtain ⟨ec, ed, h1, h2, h3⟩ := ih _ _ _ _ _ _ _ h
        rw [List.append_assoc] at h1 h3
        exact ⟨_, _, h1, by simpa using Nat.succ_le_succ h2, h3⟩

theorem log_shape_append_one (q : String) (rs : List (List ContentBlock × List ToolResult))
    (bs : List ContentBlock) (ts : List ToolResult) :
    log_shape q (rs ++ [(bs, ts)]) =
      log_shape q rs ++ [⟨"assistant", .blocks bs⟩, ⟨"user", .results ts⟩] := by
  simp [log_shape]

theorem after_round_log_shape (q : String) (rs : List (List ContentBlock × List ToolResult))
    (exec : Exec) (content : List ContentBlock) :
    after_round (log_shape q rs) exec content =
      log_shape q (rs ++ [(content, round_results exec content)]) := by
  simp [after_round, log_shape_append_one]

theorem log_shape_length (q : String) (rs : List (List ContentBlock × List ToolResult)) :
    (log_shape q rs).length = 1 + 2 * rs.length := by
  induction rs with
  | nil => simp [log_shape]
  | cons p t ih =>
    simp [log_shape] at ih ⊢
    omega

theorem log_shape_roles (q : String) (rs : List (List ContentBlock × List ToolResult)) :
    (log_shape q rs).map Message.role =
      "user" :: (List.replicate rs.length ["assistant", "user"]).flatten := by
  induction rs with
  | nil => simp [log_shape]
  | cons p t ih =>
    simp only [log_shape, List.map_cons, List.flatten_cons, List.length_cons,
      List.replicate_succ, List.map_append] at ih ⊢
    simp_all

theorem tool_use_loop_log
    (tm : Option Exec) (tools : Option (List ToolDef)) (sys : String) (q : String) :
    ∀ (fuel round : Nat) (client : List (Option Response)) (msgs : List Message)
      (resp : Response) (calls : List ModelCall) (disps : List Dispatch)
      (rs0 : List (List ContentBlock × List ToolResult)) (tr : Trace),
      msgs = log_shape q rs0 →
      (∃ c, calls.getLast? = some c ∧ c.messages = msgs) →
      (∀ p ∈ rs0, ∃ exec, tm = some exec ∧ p.2 = round_results exec p.1) →
      disps = (rs0.map fun p => round_dispatches p.1).flatten →
      tool_use_loop tm tools sys fuel round client msgs resp calls disps = some tr →
      ∃ rs, rs.length ≤ rs0.length + fuel ∧
        tr.calls.length + rs0.length = calls.length + rs.length ∧
        tr.dispatches = (rs.map fun p => round_dispatches p.1).flatten ∧
        (∃ c, tr.calls.getLast? = some c ∧ c.messages = log_shape q rs) ∧
        (∀ p ∈ rs, ∃ exec, tm = some exec ∧ p.2 = round_results exec p.1) := by
  intro fuel
  induction fuel with
  | zero =>
    intro round client msgs resp calls disps rs0 tr hmsgs hlast hrounds hdisp h
    rw [tool_use_loop_zero] at h
    simp only [Option.map_eq_some'] at h
    obtain ⟨t, _, rfl⟩ := h
    exact ⟨rs0, by simp, by simp, hdisp, hmsgs ▸ hlast, hrounds⟩
  | succ n ih =>
    intro round client msgs resp calls disps rs0 tr hmsgs hlast hrounds hdisp h
    rw [tool_use_loop_succ] at h
    split at h
    · simp only [Option.map_eq_some'] at h
      obtain ⟨t, _, rfl⟩ := h
      exact ⟨rs0, by simp, by simp, hdisp, hmsgs ▸ hlast, hrounds⟩
    · split at h
      · simp only [Option.map_eq_some'] at h
        obtain ⟨t, _, rfl⟩ := h
        exact ⟨rs0, by simp, by simp, hdisp, hmsgs ▸ hlast, hrounds⟩
      · exact absurd h (by simp)
      · exact absurd h (by simp)
      · rename_i tmv clientv exec r rest hcond
        subst hmsgs
        obtain ⟨rs, hle, hcount, hdispc, hlastc, hrs⟩ := ih (round + 1) rest _ r _ _
          (rs0 ++ [(resp.content, round_results exec resp.content)]) tr
          (after_round_log_shape q rs0 exec resp.content)
          ⟨follow_up_call (after_round (log_shape q rs0) exec resp.content) sys round tools,
            List.getLast?_concat _, rfl⟩
          (by
            intro p hp
            rcases List.mem_append.mp hp with hp | hp
            · exact hrounds p hp
            · simp only [List.mem_singleton] at hp
              exact ⟨exec, rfl, by rw [hp]⟩)
          (by rw [hdisp]; simp)
          h
        simp only [List.length_append, List.length_cons, List.length_nil] at hcount hle
        exact ⟨rs, by omega, by omega, hdispc, hlastc, hrs⟩

theorem tool_use_loop_stop (fuel round : Nat) {tm : Option Exec} {resp : Response}
    (h : resp.stop_reason ≠ "tool_use" ∨ tm = none)
    {tools : Option (List ToolDef)} {sys : String} {client : List (Option Response)}
    {msgs : List Message} {calls : List ModelCall} {disps : List Dispatch} :
    tool_use_loop tm tools sys (fuel + 1) round client msgs resp calls disps =
      (extract_text resp.content).map fun t => ⟨calls, disps, t⟩ := by
  rw [tool_use_loop_succ]
  rcases h with h | h
  · simp [h]
  · subst h
    simp

theorem tool_use_loop_tool_step (fuel round : Nat) {resp : Response} (exec : Exec)
    (h : resp.stop_reason = "tool_use")
    {tools : Option (List ToolDef)} {sys : String} {r : Response}
    {rest : List (Option Response)} {msgs : List Message} {calls : List ModelCall}
    {disps : List Dispatch} :
    tool_use_loop (some exec) tools sys (fuel + 1) round (some r :: rest) msgs resp calls disps =
      tool_use_loop (some exec) tools sys fuel (round + 1) rest
        (after_round msgs exec resp.content) r
        (calls ++ [follow_up_call (after_round msgs exec resp.content) sys round tools])
        (disps ++ round_dispatches resp.content) := by
  rw [tool_use_loop_succ]
  simp [h]

theorem generate_response_cons (r : Response) (rest : List (Option Response)) (q : String)
    (hist : Option String) (tools : Option (List ToolDef)) (tm : Option Exec) :
    generate_response (some r :: rest) q hist tools tm =
      tool_use_loop tm tools (build_system_content hist) MAX_TOOL_ROUNDS 0 rest
        [⟨"user", .str q⟩] r
        [⟨[⟨"user", .str q⟩], build_system_content hist,
          if toolsTruthy tools then tools else none⟩] [] := rfl

/-- C5: a first response that does not request a tool, or an absent tool
manager, means exactly one model call, no dispatch, and the returned string
is the extracted text of that first response. -/
theorem claim_C5 : ∀ (r : Response) (rest : List (Option Response)) (q : String)
    (hist : Option String) (tools : Option (List ToolDef)) (tm : Option Exec) (tr : Trace),
    r.stop_reason ≠ "tool_use" ∨ tm = none →
    generate_response (some r :: rest) q hist tools tm = some tr →
    tr.calls.length = 1 ∧ tr.dispatches = [] ∧ extract_text r.content = some tr.result := by
  intro r rest q hist tools tm tr hstop h
  rw [generate_response_cons, show MAX_TOOL_ROUNDS = 1 + 1 from rfl,
    tool_use_loop_stop 1 0 hstop] at h
  simp only [Option.map_eq_some'] at h
  obtain ⟨t, ht, rfl⟩ := h
  exact ⟨by simp, by simp, ht⟩

/-- C1: the model endpoint is called at most MAX_TOOL_ROUNDS + 1 = 3 times;
a run whose first two responses each request one tool makes exactly three
model calls and two dispatches, offers tools on the first two calls and not
on the third. -/
theorem claim_C1 :
    (∀ (client : List (Option Response)) (q : String) (hist : Option String)
       (tools : Option (List ToolDef)) (tm : Option Exec) (tr : Trace),
       generate_response client q hist tools tm = some tr →
       tr.calls.length ≤ MAX_TOOL_ROUNDS + 1) ∧
    (∀ (r1 r2 r3 : Response) (rest : List (Option Response)) (q : String)
       (hist : Option String) (tools : Option (List ToolDef)) (exec : Exec) (tr : Trace),
       r1.stop_reason = "tool_use" → r2.stop_reason = "tool_use" →
       (r1.content.filter isToolUse).length = 1 →
       (r2.content.filter isToolUse).length = 1 →
       toolsTruthy tools = true →
       generate_response (some r1 :: some r2 :: some r3 :: rest) q hist tools (some exec)
         = some tr →
       tr.calls.length = 3 ∧ tr.dispatches.length = 2 ∧
       tr.calls.map ModelCall.tools = [tools, tools, none]) := by
  constructor
  · intro client q hist tools tm tr h
    match client with
    | [] => exact absurd h (by simp [generate_response])
    | none :: rest => exact absurd h (by simp [generate_response])
    | some r :: rest =>
      rw [generate_response_cons] at h
      obtain ⟨ec, ed, h1, h2, -⟩ := tool_use_loop_extension _ _ _ _ _ _ _ _ _ _ _ h
      rw [h1]
      simp only [List.length_append, List.length_cons, List.length_nil]
      omega
  · intro r1 r2 r3 rest q hist tools exec tr h1 h2 hf1 hf2 htools h
    rw [generate_response_cons, show MAX_TOOL_ROUNDS = 1 + 1 from rfl,
      tool_use_loop_tool_step 1 0 exec h1, tool_use_loop_tool_step 0 1 exec h2,
      tool_use_loop_zero] at h
    simp only [Option.map_eq_some'] at h
    obtain ⟨t, ht, rfl⟩ := h
    refine ⟨by simp, ?_, ?_⟩
    · simp [round_dispatches, hf1, hf2]
    · simp [follow_up_call, MAX_TOOL_ROUNDS, htools]

/-- C2: after k completed tool rounds the final call's log has 1 + 2k
strictly alternating entries: the user query, then per round the assistant
tool-request message and one user message with that round's tool results. -/
theorem claim_C2 : ∀ (client : List (Option Response)) (q : String) (hist : Option String)
    (tools : Option (List ToolDef)) (tm : Option Exec) (tr : Trace),
    generate_response client q hist tools tm = some tr →
    ∃ rs c, rs.length ≤ MAX_TOOL_ROUNDS ∧
      tr.calls.length = 1 + rs.length ∧
      tr.calls.getLast? = some c ∧
      c.messages = log_shape q rs ∧
      c.messages.length = 1 + 2 * rs.length ∧
      c.messages.map Message.role =
        "user" :: (List.replicate rs.length ["assistant", "user"]).flatten ∧
      ∀ p ∈ rs, ∃ exec, tm = some exec ∧ p.2 = round_results exec p.1 := by
  intro client q hist tools tm tr h
  match client with
  | [] => exact absurd h (by simp [generate_response])
  | none :: rest => exact absurd h (by simp [generate_response])
  | some r :: rest =>
    rw [generate_response_cons] at h
    obtain ⟨rs, hle, hcount, -, ⟨c, hc1, hc2⟩, hrs⟩ :=
      tool_use_loop_log tm tools (build_system_content hist) q MAX_TOOL_ROUNDS 0 rest
        [⟨"user", .str q⟩] r
        [⟨[⟨"user", .str q⟩], build_system_content hist,
          if toolsTruthy tools then tools else none⟩] [] [] tr
        (by simp [log_shape]) ⟨_, rfl, rfl⟩ (by simp) rfl h
    refine ⟨rs, c, by simpa using hle, by simpa using hcount, hc1, hc2, ?_, ?_, hrs⟩
    · rw [hc2, log_shape_length]
    · rw [hc2, log_shape_roles]

/-- C3: in every tool round exactly the tool_use blocks of the round's
response are dispatched, in block order, with the block's name and input,
and the round's results form a single user message of tool_result items in
the same order with matching ids and verbatim dispatcher output: every
run's dispatch sequence is the round-by-round concatenation of the rounds'
tool_use blocks' (name, input) pairs, and each round contributes one
(assistant blocks, user tool_result-list) pair to the log, the results
computed blockwise from the ids and the dispatcher's strings; in the first
round concretely, the follow-up call's log is the query, the assistant
message and that single tool_result message. -/
theorem claim_C3 :
    (∀ (client : List (Option Response)) (q : String) (hist : Option String)
       (tools : Option (List ToolDef)) (exec : Exec) (tr : Trace),
       generate_response client q hist tools (some exec) = some tr →
       ∃ rs c, tr.calls.length = 1 + rs.length ∧
         tr.dispatches = (rs.map fun p =>
           (p.1.filter isToolUse).map fun b => (b.name, b.input)).flatten ∧
         tr.calls.getLast? = some c ∧
         c.messages = log_shape q rs ∧
         ∀ p ∈ rs, p.2 = (p.1.filter isToolUse).map
           fun b => ⟨b.id, exec b.name b.input⟩) ∧
    (∀ (r1 : Response) (step2 : Option Response)
       (rest : List (Option Response)) (q : String) (hist : Option String)
       (tools : Option (List ToolDef)) (exec : Exec) (tr : Trace),
       r1.stop_reason = "tool_use" →
       generate_response (some r1 :: step2 :: rest) q hist tools (some exec) = some tr →
       ∃ c, tr.calls[1]? = some c ∧
         c.messages = [⟨"user", .str q⟩, ⟨"assistant", .blocks r1.content⟩,
           ⟨"user", .results ((r1.content.filter isToolUse).map
             fun b => ⟨b.id, exec b.name b.input⟩)⟩] ∧
         ∃ ds, tr.dispatches =
           ((r1.content.filter isToolUse).map fun b => (b.name, b.input)) ++ ds) := by
  constructor
  · intro client q hist tools exec tr h
    match client with
    | [] => exact absurd h (by simp [generate_response])
    | none :: rest => exact absurd h (by simp [generate_response])
    | some r :: rest =>
      rw [generate_response_cons] at h
      obtain ⟨rs, -, hcount, hdisp, ⟨c, hc1, hc2⟩, hrs⟩ :=
        tool_use_loop_log (some exec) tools (build_system_content hist) q MAX_TOOL_ROUNDS 0
          rest [⟨"user", .str q⟩] r
          [⟨[⟨"user", .str q⟩], build_system_content hist,
            if toolsTruthy tools then tools else none⟩] [] [] tr
          (by simp [log_shape]) ⟨_, rfl, rfl⟩ (by simp) rfl h
      refine ⟨rs, c, by simpa using hcount, hdisp, hc1, hc2, ?_⟩
      intro p hp
      obtain ⟨e, he, hpe⟩ := hrs p hp
      injection he with he'
      rw [← he'] at hpe
      exact hpe
  · intro r1 step2 rest q hist tools exec tr h1 h
    match step2 with
    | none =>
      rw [generate_response_cons, show MAX_TOOL_ROUNDS = 1 + 1 from rfl,
        tool_use_loop_succ] at h
      simp [h1] at h
    | some r2 =>
      rw [generate_response_cons, show MAX_TOOL_ROUNDS = 1 + 1 from rfl,
        tool_use_loop_tool_step 1 0 exec h1] at h
      obtain ⟨ec, ed, hc, -, hd⟩ := tool_use_loop_extension _ _ _ _ _ _ _ _ _ _ _ h
      refine ⟨follow_up_call (after_round [⟨"user", .str q⟩] exec r1.content)
        (build_system_content hist) 0 tools, ?_, ?_, ⟨ed, ?_⟩⟩
      · rw [hc]
        simp
      · simp [follow_up_call, after_round, round_results]
      · simpa [round_dispatches] using hd

/-- C7: any string a tool returns (error-encoded or not) is folded back
verbatim as the round's tool_result content and the loop issues the next
model call; a model-call failure is not caught or retried inside
generate_response and the whole call fails, whatever the rest of the
script holds. -/
theorem claim_C7 :
    (∀ (r1 : Response) (step2 : Option Response) (rest : List (Option Response))
       (q : String) (hist : Option String) (tools : Option (List ToolDef))
       (exec : Exec) (tr : Trace),
       r1.stop_reason = "tool_use" →
       generate_response (some r1 :: step2 :: rest) q hist tools (some exec) = some tr →
       2 ≤ tr.calls.length ∧
       ∃ c, tr.calls[1]? = some c ∧
         c.messages.getLast? = some ⟨"user", .results ((r1.content.filter isToolUse).map
           fun b => ⟨b.id, exec b.name b.input⟩)⟩) ∧
    (∀ (rest : List (Option Response)) (q : String) (hist : Option String)
       (tools : Option (List ToolDef)) (tm : Option Exec),
       generate_response (none :: rest) q hist tools tm = none) ∧
    (∀ (r1 : Response) (rest : List (Option Response)) (q : String)
       (hist : Option String) (tools : Option (List ToolDef)) (exec : Exec),
       r1.stop_reason = "tool_use" →
       generate_response (some r1 :: none :: rest) q hist tools (some exec) = none) := by
  refine ⟨?_, ?_, ?_⟩
  · intro r1 step2 rest q hist tools exec tr h1 h
    match step2 with
    | none =>
      rw [generate_response_cons, show MAX_TOOL_ROUNDS = 1 + 1 from rfl,
        tool_use_loop_succ] at h
      simp [h1] at h
    | some r2 =>
      rw [generate_response_cons, show MAX_TOOL_ROUNDS = 1 + 1 from rfl,
        tool_use_loop_tool_step 1 0 exec h1] at h
      obtain ⟨ec, ed, hc, -, hd⟩ := tool_use_loop_extension _ _ _ _ _ _ _ _ _ _ _ h
      constructor
      · rw [hc]
        simp
      · refine ⟨follow_up_call (after_round [⟨"user", .str q⟩] exec r1.content)
          (build_system_content hist) 0 tools, ?_, ?_⟩
        · rw [hc]
          simp
        · simp [follow_up_call, after_round, round_results]
  · intro rest q hist tools tm
    rfl
  · intro r1 rest q hist tools exec h1
    rw [generate_response_cons, show MAX_TOOL_ROUNDS = 1 + 1 from rfl,
      tool_use_loop_succ]
    simp [h1]

set_option maxRecDepth 40000 in
theorem marker_count_prompt : occurrences "Previous conversation:" SYSTEM_PROMPT = 0 := by
  decide

set_option maxRecDepth 40000 in
theorem marker_count_prompt_marker :
    occurrences "Previous conversation:" (SYSTEM_PROMPT ++ "\n\nPrevious conversation:\n") = 1 := by
  decide

/-- C4: with no history the system context is byte-equal to the policy
prompt; with a (truthy) history it is the prompt, the single marker, and
the history text — the prompt alone holds no marker and the frame holds
exactly one. -/
theorem claim_C4 :
    build_system_content none = SYSTEM_PROMPT ∧
    occurrences "Previous conversation:" SYSTEM_PROMPT = 0 ∧
    occurrences "Previous conversation:" (SYSTEM_PROMPT ++ "\n\nPrevious conversation:\n") = 1 ∧
    ∀ h : String, h ≠ "" →
      build_system_content (some h) = SYSTEM_PROMPT ++ "\n\nPrevious conversation:\n" ++ h := by
  refine ⟨rfl, marker_count_prompt, marker_count_prompt_marker, ?_⟩
  intro h hne
  simp [build_system_content, String.isEmpty_iff, hne]

theorem claim_C4_witness :
    build_system_content (some "User: What is AI?") =
      SYSTEM_PROMPT ++ "\n\nPrevious conversation:\n" ++ "User: What is AI?" :=
  claim_C4.2.2.2 "User: What is AI?" (by decide)

/-- C10: an empty-string history is falsy and treated exactly like an
absent history: the system context is byte-equal to the policy prompt and
holds no marker. -/
theorem claim_C10 :
    build_system_content (some "") = SYSTEM_PROMPT ∧
    occurrences "Previous conversation:" (build_system_content (some "")) = 0 := by
  exact ⟨rfl, marker_count_prompt⟩

/-- C6 counterexample: on a response with empty content the extraction does
fail (Python raises IndexError at `response.content[0]`), contradicting the
claim that it must not fail when no text-typed block exists or the content
is empty. -/
theorem claim_C6_counterexample :
    extract_text ([] : List ContentBlock) = none ∧
    generate_response [some ⟨"end_turn", []⟩] "What is AI?" none none none = none :=
  ⟨rfl, rfl⟩

/-- C6 amended: the extraction returns the first text-typed block's text;
with no text-typed block but non-empty content it falls back to the first
block's `text` attribute; on empty content it fails (raises) instead of
returning. -/
theorem claim_C6_amended :
    (∀ (pre : List ContentBlock) (b : ContentBlock) (post : List ContentBlock),
       (∀ x ∈ pre, x.type ≠ "text") → b.type = "text" →
       extract_text (pre ++ b :: post) = b.text) ∧
    (∀ (b : ContentBlock) (rest : List ContentBlock),
       (∀ x ∈ b :: rest, x.type ≠ "text") →
       extract_text (b :: rest) = b.text) ∧
    extract_text [] = none := by
  refine ⟨?_, ?_, rfl⟩
  · intro pre b post hpre hb
    have hfind : (pre ++ b :: post).find? (fun x => x.type == "text") = some b := by
      induction pre with
      | nil => simp [List.find?_cons, hb]
      | cons x xs ih =>
        have hx : (x.type == "text") = false := by
          simpa using hpre x (by simp)
        simp only [List.cons_append, List.find?_cons, hx]
        exact ih fun y hy => hpre y (by simp [hy])
    simp [extract_text, hfind]
  · intro b rest hall
    have hfind : (b :: rest).find? (fun x => x.type == "text") = none := by
      rw [List.find?_eq_none]
      intro x hx
      simpa using hall x hx
    simp [extract_text, hfind]

theorem claim_C6_amended_witness :
    extract_text [⟨"tool_use", none, "search_course_content", [], "tool_1"⟩,
      ⟨"text", some "The actual answer", "", [], ""⟩] = some "The actual answer" :=
  claim_C6_amended.1 [⟨"tool_use", none, "search_course_content", [], "tool_1"⟩]
    ⟨"text", some "The actual answer", "", [], ""⟩ [] (by decide) rfl

/-- C8: after reset_sources, draining the registry's sources yields the
empty sequence, whatever tools were registered and whatever they had
accumulated. -/
theorem claim_C8 : ∀ m : ToolManager, m.reset_sources.get_last_sources = [] := by
  intro m
  rcases m with ⟨ts⟩
  induction ts with
  | nil => rfl
  | cons t ts ih =>
    simp only [ToolManager.reset_sources, ToolManager.get_last_sources, List.map_cons,
      List.flatten_cons] at ih ⊢
    simp [ih]

/-- C9: a body without the required query field is rejected with 422 for
every RAG system (the orchestrator is never consulted); an exception from
the RAG query yields a 500 response carrying the failure description; a
successful query yields the answer, sources and session id. -/
theorem claim_C9 :
    (∀ (rag : RagSystem) (body : QueryRequestBody), body.query = none →
       query_documents rag body = ApiResponse.unprocessable ∧
       (query_documents rag body).status = 422) ∧
    (∀ (rag : RagSystem) (body : QueryRequestBody) (q e : String), body.query = some q →
       rag.query q (session_id_of rag body) = Except.error e →
       query_documents rag body = ApiResponse.serverError e ∧
       (query_documents rag body).status = 500) ∧
    (∀ (rag : RagSystem) (body : QueryRequestBody) (q a : String) (srcs : List String),
       body.query = some q →
       rag.query q (session_id_of rag body) = Except.ok (a, srcs) →
       query_documents rag body = ApiResponse.ok a srcs (session_id_of rag body) ∧
       (query_documents rag body).status = 200) := by
  refine ⟨?_, ?_, ?_⟩
  · intro rag body hq
    simp [query_documents, hq, ApiResponse.status]
  · intro rag body q e hq herr
    simp [query_documents, hq, herr, ApiResponse.status]
  · intro rag body q a srcs hq hok
    simp [query_documents, hq, hok, ApiResponse.status]

/-- Witness for C1 on the two-round script of the repository's tests. -/
theorem claim_C1_witness :
    ∃ tr, generate_response [some outline_request, some search_request, some final_answer]
        "Find similar courses" none (some ["schema"]) (some mock_exec) = some tr ∧
      tr.calls.length = 3 ∧ tr.dispatches.length = 2 ∧
      tr.calls.map ModelCall.tools = [some ["schema"], some ["schema"], none] := by
  cases heq : generate_response [some outline_request, some search_request, some final_answer]
      "Find similar courses" none (some ["schema"]) (some mock_exec) with
  | none => exact absurd heq (by decide)
  | some tr =>
    obtain ⟨h1, h2, h3⟩ := claim_C1.2 outline_request search_request final_answer []
      "Find similar courses" none (some ["schema"]) mock_exec tr rfl rfl (by decide) (by decide)
      rfl heq
    exact ⟨tr, rfl, h1, h2, h3⟩

/-- Witness for C2 on a two-round run. -/
theorem claim_C2_witness :
    ∃ tr, generate_response [some outline_request, some search_request, some final_answer]
        "Multi-step question" none (some ["a", "b"]) (some mock_exec) = some tr ∧
      ∃ rs c, rs.length ≤ MAX_TOOL_ROUNDS ∧
        tr.calls.length = 1 + rs.length ∧
        tr.calls.getLast? = some c ∧
        c.messages = log_shape "Multi-step question" rs ∧
        c.messages.length = 1 + 2 * rs.length ∧
        c.messages.map Message.role =
          "user" :: (List.replicate rs.length ["assistant", "user"]).flatten ∧
        ∀ p ∈ rs, ∃ exec, (some mock_exec : Option Exec) = some exec ∧
          p.2 = round_results exec p.1 := by
  cases heq : generate_response [some outline_request, some search_request, some final_answer]
      "Multi-step question" none (some ["a", "b"]) (some mock_exec) with
  | none => exact absurd heq (by decide)
  | some tr =>
    exact ⟨tr, rfl, claim_C2 [some outline_request, some search_request, some final_answer]
      "Multi-step question" none (some ["a", "b"]) (some mock_exec) tr heq⟩

/-- Witness for C3 on a one-round run. -/
theorem claim_C3_witness :
    (∃ tr, generate_response [some outline_request, some search_request, some final_answer]
        "Two-step question" none (some ["s"]) (some mock_exec) = some tr ∧
      ∃ rs c, tr.calls.length = 1 + rs.length ∧
        tr.dispatches = (rs.map fun p =>
          (p.1.filter isToolUse).map fun b => (b.name, b.input)).flatten ∧
        tr.calls.getLast? = some c ∧
        c.messages = log_shape "Two-step question" rs ∧
        ∀ p ∈ rs, p.2 = (p.1.filter isToolUse).map
          fun b => ⟨b.id, mock_exec b.name b.input⟩) ∧
    (∃ tr, generate_response [some outline_request, some final_answer]
        "Tell me about MCP" none (some ["s"]) (some mock_exec) = some tr ∧
      ∃ c, tr.calls[1]? = some c ∧
        c.messages = [⟨"user", .str "Tell me about MCP"⟩,
          ⟨"assistant", .blocks outline_request.content⟩,
          ⟨"user", .results ((outline_request.content.filter isToolUse).map
            fun b => ⟨b.id, mock_exec b.name b.input⟩)⟩] ∧
        ∃ ds, tr.dispatches =
          ((outline_request.content.filter isToolUse).map fun b => (b.name, b.input)) ++ ds) := by
  constructor
  · cases heq : generate_response [some outline_request, some search_request, some final_answer]
        "Two-step question" none (some ["s"]) (some mock_exec) with
    | none => exact absurd heq (by decide)
    | some tr =>
      exact ⟨tr, rfl, claim_C3.1 [some outline_request, some search_request, some final_answer]
        "Two-step question" none (some ["s"]) mock_exec tr heq⟩
  · cases heq : generate_response [some outline_request, some final_answer]
        "Tell me about MCP" none (some ["s"]) (some mock_exec) with
    | none => exact absurd heq (by decide)
    | some tr =>
      exact ⟨tr, rfl, claim_C3.2 outline_request (some final_answer) [] "Tell me about MCP"
        none (some ["s"]) mock_exec tr rfl heq⟩

/-- Witness for C5 on a direct, tool-free response. -/
theorem claim_C5_witness :
    ∃ tr, generate_response [some direct_answer] "What is 2+2?" none none none = some tr ∧
      tr.calls.length = 1 ∧ tr.dispatches = [] ∧
      extract_text direct_answer.content = some tr.result := by
  cases heq : generate_response [some direct_answer] "What is 2+2?" none none none with
  | none => exact absurd heq (by decide)
  | some tr =>
    exact ⟨tr, rfl, claim_C5 direct_answer [] "What is 2+2?" none none none tr
      (Or.inl (by decide)) heq⟩

/-- Witness for C7: an error-encoded tool result is forwarded verbatim and
the loop continues; a failing model call fails the whole run. -/
theorem claim_C7_witness :
    (∃ tr, generate_response [some outline_request, some final_answer] "Query" none
        (some ["s"]) (some error_exec) = some tr ∧
      2 ≤ tr.calls.length ∧
      ∃ c, tr.calls[1]? = some c ∧
        c.messages.getLast? = some ⟨"user", .results
          ((outline_request.content.filter isToolUse).map
            fun b => ⟨b.id, error_exec b.name b.input⟩)⟩) ∧
    generate_response [none] "Query" none none none = none ∧
    generate_response [some outline_request, none] "Query" none (some ["s"])
      (some mock_exec) = none := by
  refine ⟨?_, claim_C7.2.1 [] "Query" none none none,
    claim_C7.2.2 outline_request [] "Query" none (some ["s"]) mock_exec rfl⟩
  cases heq : generate_response [some outline_request, some final_answer] "Query" none
      (some ["s"]) (some error_exec) with
  | none => exact absurd heq (by decide)
  | some tr =>
    obtain ⟨h1, h2⟩ := claim_C7.1 outline_request (some final_answer) [] "Query" none
      (some ["s"]) error_exec tr rfl heq
    exact ⟨tr, rfl, h1, h2⟩

/-- Witness for C9 on the mocked RAG system of the repository's API tests. -/
theorem claim_C9_witness :
    (query_documents mock_rag ⟨none, some "abc"⟩ = ApiResponse.unprocessable) ∧
    (query_documents failing_rag ⟨some "Will fail", none⟩ =
      ApiResponse.serverError "Model API unavailable") ∧
    (query_documents mock_rag ⟨some "What is AI?", none⟩ =
      ApiResponse.ok "This is a test answer." ["Intro to AI - Lesson 1"] "session_42") :=
  ⟨(claim_C9.1 mock_rag ⟨none, some "abc"⟩ rfl).1,
   (claim_C9.2.1 failing_rag ⟨some "Will fail", none⟩ "Will fail" "Model API unavailable"
     rfl rfl).1,
   (claim_C9.2.2 mock_rag ⟨some "What is AI?", none⟩ "What is AI?" "This is a test answer."
     ["Intro to AI - Lesson 1"] rfl rfl).1⟩
